import Mathlib

/-!
Shallow embedding of the Basic-Security-System repository
(`src/security_system.py`, `src/BSS/bss.py`).

The mutable Python dictionaries (`self.users`, `self.protected_data`,
`self.login_attempts`) are modelled as association lists with Python's
dict semantics (update-in-place for an existing key, append for a new
one).  Wall-clock time is a `Nat` of seconds passed explicitly to each
step.  The library digests `hashlib.sha256(...).hexdigest()` and
`hashlib.md5(...).hexdigest()` are abstracted as function parameters
`sha256hex`/`md5hex : String → String`; the facts a claim needs about a
digest value (32 lowercase-hex characters, mismatch with a stored hash)
are explicit hypotheses.  Python's `str.strip`, `str.upper`, `str.lower`
and slicing are given structural definitions on the character list so
that concrete instances evaluate in the kernel.
-/

namespace BasicSecuritySystem

/-- Python whitespace stripped by `str.strip()` (ASCII fragment). -/
def isPySpace (c : Char) : Bool :=
  c == ' ' || c == '\t' || c == '\n' || c == '\r' || c == '\x0b' || c == '\x0c'

/-- Model of Python `s.strip()`. -/
def pyStrip (s : String) : String :=
  ⟨((s.data.dropWhile isPySpace).reverse.dropWhile isPySpace).reverse⟩

/-- Model of Python `s.upper()` (ASCII fragment). -/
def pyUpper (s : String) : String :=
  ⟨s.data.map Char.toUpper⟩

/-- Model of Python `s.lower()` (ASCII fragment). -/
def pyLower (s : String) : String :=
  ⟨s.data.map Char.toLower⟩

/-- Model of Python slicing `s[:n]`. -/
def pyTake (s : String) (n : Nat) : String :=
  ⟨s.data.take n⟩

/-- One record of the credential store: `{"password": <hex digest>, "role": ...}`. -/
structure UserRecord where
  password : String
  role : String
deriving DecidableEq, Repr

/-- One record of the protected-data store: `{"notes": [...], "files": [...]}`. -/
structure NoteData where
  notes : List String
  files : List String
deriving DecidableEq, Repr

/-- One record of `self.login_attempts`: `{"count": ..., "freeze_time": ...}`.
`freeze_time` is `none` for Python `None`, `some t` for an absolute time. -/
structure AttemptInfo where
  count : Nat
  freeze_time : Option Nat
deriving DecidableEq, Repr

/-- State of a JSON backing file: absent, present but unparseable, or
holding a parsed document. -/
inductive FileState (α : Type) where
  | missing
  | malformed
  | stored (content : α)
deriving DecidableEq, Repr

/-- Dictionary lookup `d[k]` / `k in d` on an association list. -/
def lookupA {α : Type} (k : String) : List (String × α) → Option α
  | [] => none
  | (k', v) :: rest => if k = k' then some v else lookupA k rest

/-- Dictionary assignment `d[k] = v`: replaces in place if the key is
present, appends otherwise (Python dict insertion order). -/
def insertA {α : Type} (k : String) (v : α) : List (String × α) → List (String × α)
  | [] => [(k, v)]
  | (k', v') :: rest => if k = k' then (k, v) :: rest else (k', v') :: insertA k v rest

/-- Full state of one `SecuritySystem` instance: the three in-memory
dictionaries plus the two backing files. -/
structure SecState where
  users : List (String × UserRecord)
  protected_data : List (String × NoteData)
  login_attempts : List (String × AttemptInfo)
  userFile : FileState (List (String × UserRecord))
  protFile : FileState (List (String × NoteData))
deriving DecidableEq, Repr

/-- Constant `self.max_attempts = 5`. -/
def max_attempts : Nat := 5

/-- Constant `self.freeze_duration = 30`. -/
def freeze_duration : Nat := 30

/-- Model of `SecuritySystem.load_users`: returns the parsed mapping and the file
state after the call (a missing file is created empty; malformed content
falls back to `{}` without touching the file). -/
def load_users : FileState (List (String × UserRecord)) →
    List (String × UserRecord) × FileState (List (String × UserRecord))
  | .stored m => (m, .stored m)
  | .malformed => ([], .malformed)
  | .missing => ([], .stored [])

/-- Model of `SecuritySystem.save_users`: `json.dump(users, file, indent=4)`
overwrites the backing file with the full mapping. -/
def save_users (users : List (String × UserRecord)) :
    FileState (List (String × UserRecord)) :=
  .stored users

/-- Model of `SecuritySystem.is_frozen`: returns the printed messages and the
updated state alongside the boolean.  A freeze that has lapsed (or a
count at the limit with no freeze time) resets the entry to
`count = 0, freeze_time = None` before reporting not-frozen. -/
def is_frozen (now : Nat) (st : SecState) (username : String) :
    Bool × List String × SecState :=
  match lookupA username st.login_attempts with
  | none => (false, [], st)
  | some info =>
    if info.count ≥ max_attempts then
      match info.freeze_time with
      | some ft =>
        if now < ft then
          (true, [s!"\nAccount is frozen. Try again in {ft - now} seconds."], st)
        else
          (false, [],
            { st with login_attempts := insertA username ⟨0, none⟩ st.login_attempts })
      | none =>
        (false, [],
          { st with login_attempts := insertA username ⟨0, none⟩ st.login_attempts })
    else (false, [], st)

/-- Result of a `login` call: a returned username, a `return None`
rejection, or a loop still waiting for further password attempts. -/
inductive LoginResult where
  | ok (username : String)
  | rejected
  | pending
deriving DecidableEq, Repr

/-- Outcome of a `login` call: result, printed messages, final state. -/
structure LoginOutcome where
  result : LoginResult
  msgs : List String
  state : SecState
deriving DecidableEq, Repr

/-- The `while True` loop of `SecuritySystem.login`
(`src/security_system.py`).  Each element of `attempts` is the wall-clock
time of one loop iteration and the password the user would type there;
an exhausted list leaves the loop `pending`.  `none` models the
`KeyError` of `self.users[username]` on an unregistered name. -/
def loginLoop (sha256hex : String → String) (username : String) :
    List (Nat × String) → SecState → Option LoginOutcome
  | [], st => some ⟨.pending, [], st⟩
  | (now, pw) :: rest, st =>
    let fr := is_frozen now st username
    if fr.1 then some ⟨.rejected, fr.2.1, fr.2.2⟩
    else
      let st1 := fr.2.2
      let hashed := sha256hex pw
      match lookupA username st1.users with
      | none => none
      | some rec =>
        let info := (lookupA username st1.login_attempts).getD ⟨0, none⟩
        if hashed = rec.password then
          some ⟨.ok username, [s!"\nWelcome, {username}!"],
            { st1 with login_attempts :=
                insertA username { info with count := 0 } st1.login_attempts }⟩
        else
          let newCount := info.count + 1
          let attempts_left : Int := (max_attempts : Int) - (newCount : Int)
          if attempts_left ≤ 0 then
            let la := insertA username ⟨newCount, some (now + freeze_duration)⟩ st1.login_attempts
            some ⟨.rejected, ["\nToo many failed attempts! Account frozen."],
              { st1 with login_attempts := la }⟩
          else
            (loginLoop sha256hex username rest
              { st1 with login_attempts :=
                  insertA username { info with count := newCount } st1.login_attempts }).map
              fun out =>
                ⟨out.result,
                  s!"Invalid password. {attempts_left} attempts remaining." ::
                    "Try again or press Ctrl+C to cancel login." :: out.msgs,
                  out.state⟩

/-- Model of `SecuritySystem.login` of `src/security_system.py`: strips the typed
username, rejects an unknown one with the uniform message, initializes
the attempt entry, then runs the attempt loop. -/
def login (sha256hex : String → String) (usernameRaw : String)
    (attempts : List (Nat × String)) (st : SecState) : Option LoginOutcome :=
  let username := pyStrip usernameRaw
  if (lookupA username st.users).isNone then
    some ⟨.rejected, ["Invalid username or password"], st⟩
  else
    let st1 :=
      if (lookupA username st.login_attempts).isNone then
        { st with login_attempts := insertA username ⟨0, none⟩ st.login_attempts }
      else st
    loginLoop sha256hex username attempts st1

/-- Model of `SecuritySystem.login` of `src/BSS/bss.py`: single password attempt
per call; the freeze check precedes the attempt-entry initialization. -/
def loginB (sha256hex : String → String) (usernameRaw pw : String) (now : Nat)
    (st : SecState) : Option LoginOutcome :=
  let username := pyStrip usernameRaw
  if (lookupA username st.users).isNone then
    some ⟨.rejected, ["Invalid username or password"], st⟩
  else
    let fr := is_frozen now st username
    if fr.1 then some ⟨.rejected, fr.2.1, fr.2.2⟩
    else
      let st1 := fr.2.2
      let st2 :=
        if (lookupA username st1.login_attempts).isNone then
          { st1 with login_attempts := insertA username ⟨0, none⟩ st1.login_attempts }
        else st1
      let hashed := sha256hex pw
      match lookupA username st2.users with
      | none => none
      | some rec =>
        let info := (lookupA username st2.login_attempts).getD ⟨0, none⟩
        if hashed = rec.password then
          some ⟨.ok username, [s!"\nWelcome, {username}!"],
            { st2 with login_attempts :=
                insertA username { info with count := 0 } st2.login_attempts }⟩
        else
          let newCount := info.count + 1
          let attempts_left : Int := (max_attempts : Int) - (newCount : Int)
          if attempts_left ≤ 0 then
            let la := insertA username ⟨newCount, some (now + freeze_duration)⟩ st2.login_attempts
            some ⟨.rejected, ["\nToo many failed attempts! Account frozen."],
              { st2 with login_attempts := la }⟩
          else
            some ⟨.rejected,
              [s!"Invalid username or password. {attempts_left} attempts remaining."],
              { st2 with login_attempts :=
                  insertA username { info with count := newCount } st2.login_attempts }⟩

/-- Model of `SecuritySystem.register_user` (`src/security_system.py`), with the
interactive inputs passed as parameters.  `admin_username = none` models
the parameterless bootstrap call. -/
def register_user (sha256hex : String → String) (admin_username : Option String)
    (new_username_raw password confirm_password role_input : String)
    (st : SecState) : Bool × SecState :=
  let first_user := st.users.length = 0
  let adminOk : Bool :=
    match admin_username with
    | none => true
    | some a =>
      match lookupA a st.users with
      | none => false
      | some rec => rec.role = "admin"
  if ¬first_user ∧ admin_username.isSome ∧ adminOk = false then (false, st)
  else
    let new_username := pyStrip new_username_raw
    if (lookupA new_username st.users).isSome then (false, st)
    else if password ≠ confirm_password then (false, st)
    else
      let role :=
        if first_user then "admin"
        else
          let r := pyLower (pyStrip role_input)
          if r = "admin" ∨ r = "user" then r else "user"
      let hashed := sha256hex password
      let users' := insertA new_username ⟨hashed, role⟩ st.users
      let prot' := insertA new_username ⟨[], []⟩ st.protected_data
      (true,
        { st with
            users := users'
            protected_data := prot'
            userFile := .stored users'
            protFile := .stored prot' })

/-- Model of `SecuritySystem.change_password` (`src/BSS/bss.py`).  `none` models
the `KeyError` on an unregistered username. -/
def change_password (sha256hex : String → String)
    (username current_password new_password confirm_password : String)
    (st : SecState) : Option (Bool × SecState) :=
  match lookupA username st.users with
  | none => none
  | some rec =>
    if sha256hex current_password ≠ rec.password then some (false, st)
    else if new_password ≠ confirm_password then some (false, st)
    else
      let users' := insertA username { rec with password := sha256hex new_password } st.users
      some (true, { st with users := users', userFile := .stored users' })

/-- Model of `SecuritySystem.admin_reset_password` (`src/security_system.py`),
with the interactive inputs passed as parameters. -/
def admin_reset_password (sha256hex : String → String)
    (target_raw new_password confirm_password : String) (st : SecState) : SecState :=
  let target := pyStrip target_raw
  match lookupA target st.users with
  | none => st
  | some rec =>
    if new_password ≠ confirm_password then st
    else
      let users' := insertA target { rec with password := sha256hex new_password } st.users
      { st with users := users', userFile := .stored users' }

/-- The emergency code: `hashlib.md5((username + date).encode()).hexdigest()[:6].upper()`
where `date` is `datetime.now().strftime("%Y%m%d")`. -/
def deriveCode (md5hex : String → String) (username dateStr : String) : String :=
  pyUpper (pyTake (md5hex (username ++ dateStr)) 6)

/-- Model of `SecuritySystem.emergency_profile_reset` (`src/security_system.py`),
with the interactive inputs and the current date string passed as
parameters. -/
def emergency_profile_reset (sha256hex md5hex : String → String)
    (username_raw attempt_raw new_password confirm_password dateStr : String)
    (st : SecState) : SecState :=
  let username := pyStrip username_raw
  match lookupA username st.users with
  | none => st
  | some rec =>
    let reset_code := deriveCode md5hex username dateStr
    let attempt := pyUpper (pyStrip attempt_raw)
    if attempt ≠ reset_code then st
    else if new_password ≠ confirm_password then st
    else
      let users' := insertA username { rec with password := sha256hex new_password } st.users
      { st with users := users', userFile := .stored users' }

/-- Model of `SecuritySystem.add_note` (`src/security_system.py`). -/
def add_note (username note : String) (st : SecState) : SecState :=
  let pd :=
    if (lookupA username st.protected_data).isNone then
      insertA username ⟨[], []⟩ st.protected_data
    else st.protected_data
  let entry := (lookupA username pd).getD ⟨[], []⟩
  let pd' := insertA username { entry with notes := entry.notes ++ [note] } pd
  { st with protected_data := pd', protFile := .stored pd' }

/-- Replace the lockout dictionary of a state (abbreviation used in
theorem statements). -/
def withAttempts (st : SecState) (la : List (String × AttemptInfo)) : SecState :=
  { st with login_attempts := la }

/-! ## Concrete sample data for witness instances -/

/-- Sample digest function for witness instances. -/
def hashW (s : String) : String := "hash-" ++ s

/-- Sample credential record for witness instances. -/
def recW : UserRecord := ⟨"hash-secret", "admin"⟩

/-- Sample state with one registered user and no login attempts. -/
def stW : SecState :=
  ⟨[("alice", recW)], [("alice", ⟨[], []⟩)], [], .stored [("alice", recW)], .stored []⟩

/-- Sample state with the user frozen until time 100. -/
def stWF : SecState :=
  { stW with login_attempts := [("alice", ⟨5, some 100⟩)] }

/-- Sample state with an empty credential store. -/
def stWE : SecState := ⟨[], [], [], .stored [], .stored []⟩

/-- Sample digest function standing in for `hashlib.md5(...).hexdigest()`
in witness instances. -/
def md5W (_ : String) : String := "0123456789abcdef0123456789abcdef"

/-- The sixteen lowercase hexadecimal digits. -/
def hexLowerChars : List Char := "0123456789abcdef".data

/-- The sixteen uppercase hexadecimal digits. -/
def hexUpperChars : List Char := "0123456789ABCDEF".data

/-- Shape of an `md5` hexdigest: 32 lowercase hexadecimal characters. -/
def Md5HexStr (h : String) : Prop :=
  h.data.length = 32 ∧ ∀ c ∈ h.data, c ∈ hexLowerChars

/-- The role of a stored record is one of the two enum values. -/
def RoleOk (rec : UserRecord) : Prop :=
  rec.role = "admin" ∨ rec.role = "user"

/-- Role-enum invariant of a credential mapping. -/
def RoleInv (users : List (String × UserRecord)) : Prop :=
  ∀ p ∈ users, RoleOk p.2

/-! ## Association-list lemmas -/

@[simp]
theorem lookupA_nil {α : Type} (k : String) : lookupA k ([] : List (String × α)) = none := rfl

@[simp]
theorem lookupA_insertA_self {α : Type} (k : String) (v : α) (l : List (String × α)) :
    lookupA k (insertA k v l) = some v := by
  induction l with
  | nil => simp [lookupA, insertA]
  | cons hd tl ih =>
    obtain ⟨k', v'⟩ := hd
    by_cases h : k = k' <;> simp [lookupA, insertA, h, ih]

theorem lookupA_insertA_ne {α : Type} {k k2 : String} (v : α) (l : List (String × α))
    (h : k ≠ k2) : lookupA k (insertA k2 v l) = lookupA k l := by
  induction l with
  | nil => simp [lookupA, insertA, h]
  | cons hd tl ih =>
    obtain ⟨k', v'⟩ := hd
    by_cases h2 : k2 = k' <;> by_cases h3 : k = k' <;>
      simp_all [lookupA, insertA]

@[simp]
theorem insertA_insertA {α : Type} (k : String) (v w : α) (l : List (String × α)) :
    insertA k v (insertA k w l) = insertA k v l := by
  induction l with
  | nil => simp [insertA]
  | cons hd tl ih =>
    obtain ⟨k', v'⟩ := hd
    by_cases h : k = k' <;> simp [insertA, h, ih]

/-! ## Unfolding lemmas for the lockout check -/

theorem is_frozen_no_entry (now : Nat) (st : SecState) (u : String)
    (h : lookupA u st.login_attempts = none) :
    is_frozen now st u = (false, [], st) := by
  simp [is_frozen, h]

theorem is_frozen_low_count (now : Nat) (st : SecState) (u : String) (info : AttemptInfo)
    (h : lookupA u st.login_attempts = some info) (hc : info.count < max_attempts) :
    is_frozen now st u = (false, [], st) := by
  simp [is_frozen, h, Nat.not_le.mpr hc]

theorem is_frozen_active (now : Nat) (st : SecState) (u : String) (info : AttemptInfo)
    (ft : Nat) (h : lookupA u st.login_attempts = some info)
    (hc : max_attempts ≤ info.count) (hf : info.freeze_time = some ft) (hn : now < ft) :
    is_frozen now st u =
      (true, [s!"\nAccount is frozen. Try again in {ft - now} seconds."], st) := by
  simp [is_frozen, h, hc, hf, hn]

theorem is_frozen_expired (now : Nat) (st : SecState) (u : String) (info : AttemptInfo)
    (ft : Nat) (h : lookupA u st.login_attempts = some info)
    (hc : max_attempts ≤ info.count) (hf : info.freeze_time = some ft) (hn : ft ≤ now) :
    is_frozen now st u =
      (false, [], { st with login_attempts := insertA u ⟨0, none⟩ st.login_attempts }) := by
  simp [is_frozen, h, hc, hf, Nat.not_lt.mpr hn]

/-! ## Step lemmas for the login loop -/

theorem loginLoop_frozen (sha256hex : String → String) (u pw : String) (now : Nat)
    (rest : List (Nat × String)) (st : SecState) (info : AttemptInfo) (ft : Nat)
    (h : lookupA u st.login_attempts = some info)
    (hc : max_attempts ≤ info.count) (hf : info.freeze_time = some ft) (hn : now < ft) :
    loginLoop sha256hex u ((now, pw) :: rest) st =
      some ⟨.rejected, [s!"\nAccount is frozen. Try again in {ft - now} seconds."], st⟩ := by
  simp [loginLoop, is_frozen_active now st u info ft h hc hf hn]

theorem loginLoop_expire (sha256hex : String → String) (u pw : String) (now : Nat)
    (rest : List (Nat × String)) (st : SecState) (info : AttemptInfo) (ft : Nat)
    (h : lookupA u st.login_attempts = some info)
    (hc : max_attempts ≤ info.count) (hf : info.freeze_time = some ft) (hn : ft ≤ now) :
    loginLoop sha256hex u ((now, pw) :: rest) st =
      loginLoop sha256hex u ((now, pw) :: rest)
        { st with login_attempts := insertA u ⟨0, none⟩ st.login_attempts } := by
  have h2 : lookupA u
      ({ st with login_attempts := insertA u (⟨0, none⟩ : AttemptInfo) st.login_attempts }
        : SecState).login_attempts = some ⟨0, none⟩ := lookupA_insertA_self ..
  rw [loginLoop, loginLoop, is_frozen_expired now st u info ft h hc hf hn,
    is_frozen_low_count now _ u ⟨0, none⟩ h2 (by simp [max_attempts])]

theorem loginLoop_success (sha256hex : String → String) (u pw : String) (now : Nat)
    (rest : List (Nat × String)) (st : SecState) (info : AttemptInfo) (rec : UserRecord)
    (hla : lookupA u st.login_attempts = some info) (hc : info.count < max_attempts)
    (hus : lookupA u st.users = some rec) (hpw : sha256hex pw = rec.password) :
    loginLoop sha256hex u ((now, pw) :: rest) st =
      some ⟨.ok u, [s!"\nWelcome, {u}!"],
        { st with login_attempts :=
            insertA u { info with count := 0 } st.login_attempts }⟩ := by
  simp [loginLoop, is_frozen_low_count now st u info hla hc, hla, hus, hpw]

theorem loginLoop_fail_cont (sha256hex : String → String) (u pw : String) (now : Nat)
    (rest : List (Nat × String)) (st : SecState) (info : AttemptInfo) (rec : UserRecord)
    (hla : lookupA u st.login_attempts = some info) (hc : info.count + 1 < max_attempts)
    (hus : lookupA u st.users = some rec) (hpw : sha256hex pw ≠ rec.password) :
    loginLoop sha256hex u ((now, pw) :: rest) st =
      (loginLoop sha256hex u rest
        { st with login_attempts :=
            insertA u { info with count := info.count + 1 } st.login_attempts }).map
        fun out =>
          ⟨out.result,
            s!"Invalid password. {(max_attempts : Int) - ((info.count + 1 : Nat) : Int)} attempts remaining." ::
              "Try again or press Ctrl+C to cancel login." :: out.msgs,
            out.state⟩ := by
  have hcount : info.count < max_attempts := Nat.lt_of_succ_lt hc
  simp [loginLoop, is_frozen_low_count now st u info hla hcount, hla, hus, hpw]
  intro hcond
  exfalso
  omega

theorem loginLoop_fail_freeze (sha256hex : String → String) (u pw : String) (now : Nat)
    (rest : List (Nat × String)) (st : SecState) (info : AttemptInfo) (rec : UserRecord)
    (hla : lookupA u st.login_attempts = some info) (hc : info.count < max_attempts)
    (hc2 : max_attempts ≤ info.count + 1)
    (hus : lookupA u st.users = some rec) (hpw : sha256hex pw ≠ rec.password) :
    loginLoop sha256hex u ((now, pw) :: rest) st =
      some ⟨.rejected, ["\nToo many failed attempts! Account frozen."],
        { st with login_attempts :=
            insertA u ⟨info.count + 1, some (now + freeze_duration)⟩ st.login_attempts }⟩ := by
  simp [loginLoop, is_frozen_low_count now st u info hla hc, hla, hus, hpw]
  omega

/-! ## Unfolding lemmas for `login` -/

theorem login_unknown (sha256hex : String → String) (raw : String)
    (attempts : List (Nat × String)) (st : SecState)
    (h : lookupA (pyStrip raw) st.users = none) :
    login sha256hex raw attempts st =
      some ⟨.rejected, ["Invalid username or password"], st⟩ := by
  simp [login, h]

theorem login_known_fresh (sha256hex : String → String) (raw : String) (rec : UserRecord)
    (attempts : List (Nat × String)) (st : SecState)
    (hus : lookupA (pyStrip raw) st.users = some rec)
    (hla : lookupA (pyStrip raw) st.login_attempts = none) :
    login sha256hex raw attempts st =
      loginLoop sha256hex (pyStrip raw) attempts
        { st with login_attempts :=
            insertA (pyStrip raw) ⟨0, none⟩ st.login_attempts } := by
  simp [login, hus, hla]

theorem login_known_existing (sha256hex : String → String) (raw : String)
    (rec : UserRecord) (info : AttemptInfo)
    (attempts : List (Nat × String)) (st : SecState)
    (hus : lookupA (pyStrip raw) st.users = some rec)
    (hla : lookupA (pyStrip raw) st.login_attempts = some info) :
    login sha256hex raw attempts st = loginLoop sha256hex (pyStrip raw) attempts st := by
  simp [login, hus, hla]

/-! ## C1 -/

/-- C1: for a registered username with a fresh lockout entry, five
consecutive wrong-password attempts (`max_attempts = 5`) leave the
lockout state Frozen with freeze-until equal to the time of the fifth
attempt plus 30 seconds, and any attempt issued while still frozen
(at any time before freeze-until) is rejected with the frozen message
and an unchanged state, with an outcome independent of the supplied
password — in particular a correct password on the sixth immediate
attempt is still rejected as frozen. -/
theorem five_failures_freeze_then_sixth_rejected
    (sha256hex : String → String) (raw : String) (rec : UserRecord) (st : SecState)
    (t1 t2 t3 t4 t5 : Nat) (p1 p2 p3 p4 p5 : String)
    (hus : lookupA (pyStrip raw) st.users = some rec)
    (hla : lookupA (pyStrip raw) st.login_attempts = none)
    (h1 : sha256hex p1 ≠ rec.password) (h2 : sha256hex p2 ≠ rec.password)
    (h3 : sha256hex p3 ≠ rec.password) (h4 : sha256hex p4 ≠ rec.password)
    (h5 : sha256hex p5 ≠ rec.password) :
    login sha256hex raw [(t1, p1), (t2, p2), (t3, p3), (t4, p4), (t5, p5)] st =
      some ⟨.rejected,
        ["Invalid password. 4 attempts remaining.",
         "Try again or press Ctrl+C to cancel login.",
         "Invalid password. 3 attempts remaining.",
         "Try again or press Ctrl+C to cancel login.",
         "Invalid password. 2 attempts remaining.",
         "Try again or press Ctrl+C to cancel login.",
         "Invalid password. 1 attempts remaining.",
         "Try again or press Ctrl+C to cancel login.",
         "\nToo many failed attempts! Account frozen."],
        withAttempts st
          (insertA (pyStrip raw) ⟨max_attempts, some (t5 + freeze_duration)⟩ st.login_attempts)⟩ ∧
    (∀ (t6 : Nat) (p : String), t6 < t5 + freeze_duration →
      login sha256hex raw [(t6, p)]
          (withAttempts st
            (insertA (pyStrip raw) ⟨max_attempts, some (t5 + freeze_duration)⟩ st.login_attempts)) =
        some ⟨.rejected,
          [s!"\nAccount is frozen. Try again in {t5 + freeze_duration - t6} seconds."],
          withAttempts st
            (insertA (pyStrip raw) ⟨max_attempts, some (t5 + freeze_duration)⟩
              st.login_attempts)⟩) := by
  constructor
  · simp [login, loginLoop, is_frozen, hus, hla, h1, h2, h3, h4, h5, max_attempts, withAttempts]
    decide
  · intro t6 p ht6
    simp [login, loginLoop, is_frozen, hus, max_attempts, ht6, withAttempts]

/-- Witness for C1 at concrete inputs: user alice with stored hash
hash-secret, five wrong passwords x at times 0..4, then the correct
password secret at time 20 while frozen until 34. -/
theorem five_failures_freeze_then_sixth_rejected_witness :
    login hashW "alice" [(0, "x"), (1, "x"), (2, "x"), (3, "x"), (4, "x")] stW =
      some ⟨.rejected,
        ["Invalid password. 4 attempts remaining.",
         "Try again or press Ctrl+C to cancel login.",
         "Invalid password. 3 attempts remaining.",
         "Try again or press Ctrl+C to cancel login.",
         "Invalid password. 2 attempts remaining.",
         "Try again or press Ctrl+C to cancel login.",
         "Invalid password. 1 attempts remaining.",
         "Try again or press Ctrl+C to cancel login.",
         "\nToo many failed attempts! Account frozen."],
        withAttempts stW
          (insertA (pyStrip "alice") ⟨max_attempts, some (4 + freeze_duration)⟩ stW.login_attempts)⟩ ∧
    login hashW "alice" [(20, "secret")]
        (withAttempts stW
          (insertA (pyStrip "alice") ⟨max_attempts, some (4 + freeze_duration)⟩ stW.login_attempts)) =
      some ⟨.rejected,
        [s!"\nAccount is frozen. Try again in {4 + freeze_duration - 20} seconds."],
        withAttempts stW
          (insertA (pyStrip "alice") ⟨max_attempts, some (4 + freeze_duration)⟩ stW.login_attempts)⟩ := by
  have h := five_failures_freeze_then_sixth_rejected hashW "alice" recW stW
    0 1 2 3 4 "x" "x" "x" "x" "x" (by decide) (by decide)
    (by decide) (by decide) (by decide) (by decide) (by decide)
  exact ⟨h.1, h.2 20 "secret" (by decide)⟩

/-! ## C2 -/

/-- C2: for a frozen username (count at the limit, freeze-until set), an
authentication attempt at any time at or after freeze-until first resets
the lockout entry to `count = 0, freeze_time = None` and only then
evaluates the password: a correct password then succeeds with a final
count of 0, and a wrong password counts as the first failure
(count 1, not 6).  An attempt made strictly before freeze-until is
rejected with the frozen message and leaves the state — in particular
freeze-until — completely unchanged. -/
theorem frozen_expiry_resets_before_password_check
    (sha256hex : String → String) (raw : String) (rec : UserRecord) (st : SecState)
    (c ft : Nat)
    (hus : lookupA (pyStrip raw) st.users = some rec)
    (hla : lookupA (pyStrip raw) st.login_attempts = some ⟨c, some ft⟩)
    (hc : max_attempts ≤ c) :
    (∀ (now : Nat) (p : String), ft ≤ now → sha256hex p = rec.password →
      login sha256hex raw [(now, p)] st =
        some ⟨.ok (pyStrip raw), [s!"\nWelcome, {pyStrip raw}!"],
          withAttempts st (insertA (pyStrip raw) ⟨0, none⟩ st.login_attempts)⟩) ∧
    (∀ (now : Nat) (p : String), ft ≤ now → sha256hex p ≠ rec.password →
      login sha256hex raw [(now, p)] st =
        some ⟨.pending,
          ["Invalid password. 4 attempts remaining.",
           "Try again or press Ctrl+C to cancel login."],
          withAttempts st (insertA (pyStrip raw) ⟨1, none⟩ st.login_attempts)⟩) ∧
    (∀ (now : Nat) (p : String), now < ft →
      login sha256hex raw [(now, p)] st =
        some ⟨.rejected,
          [s!"\nAccount is frozen. Try again in {ft - now} seconds."], st⟩) := by
  have hc5 : 5 ≤ c := hc
  refine ⟨?_, ?_, ?_⟩
  · intro now p hnow hpw
    simp [login, loginLoop, is_frozen, hus, hla, hc5, hpw, max_attempts,
      Nat.not_lt.mpr hnow, withAttempts]
  · intro now p hnow hpw
    simp [login, loginLoop, is_frozen, hus, hla, hc5, hpw, max_attempts,
      Nat.not_lt.mpr hnow, withAttempts]
    decide
  · intro now p hnow
    simp [login, loginLoop, is_frozen, hus, hla, hc5, hnow, max_attempts]

/-- Witness for C2 at concrete inputs: alice frozen until time 100;
a correct password at time 100 succeeds with count reset to 0, a wrong
password at time 200 counts as the first failure, and an attempt at
time 70 is rejected with 30 seconds remaining and an unchanged state. -/
theorem frozen_expiry_resets_before_password_check_witness :
    login hashW "alice" [(100, "secret")] stWF =
      some ⟨.ok (pyStrip "alice"), ["\nWelcome, alice!"],
        withAttempts stWF (insertA (pyStrip "alice") ⟨0, none⟩ stWF.login_attempts)⟩ ∧
    login hashW "alice" [(200, "x")] stWF =
      some ⟨.pending,
        ["Invalid password. 4 attempts remaining.",
         "Try again or press Ctrl+C to cancel login."],
        withAttempts stWF (insertA (pyStrip "alice") ⟨1, none⟩ stWF.login_attempts)⟩ ∧
    login hashW "alice" [(70, "pw")] stWF =
      some ⟨.rejected,
        [s!"\nAccount is frozen. Try again in {100 - 70} seconds."], stWF⟩ := by
  have h := frozen_expiry_resets_before_password_check hashW "alice" recW stWF
    5 100 (by decide) (by decide) (by decide)
  exact ⟨h.1 100 "secret" (by decide) (by decide),
    h.2.1 200 "x" (by decide) (by decide),
    h.2.2 70 "pw" (by decide)⟩

/-! ## C3 -/

/-- C3: a registration performed against an empty credential store (with
matching password confirmation) succeeds, stores the new user with role
admin regardless of the caller-supplied role string, stores the hash of
the supplied password, creates an empty note collection for the user,
and persists both stores in the success state. -/
theorem first_registration_is_admin
    (sha256hex : String → String) (admin_username : Option String)
    (raw password confirm_password role_input : String) (st : SecState)
    (hempty : st.users = []) (hpc : password = confirm_password) :
    register_user sha256hex admin_username raw password confirm_password role_input st =
      (true,
        ⟨[(pyStrip raw, ⟨sha256hex password, "admin"⟩)],
         insertA (pyStrip raw) ⟨[], []⟩ st.protected_data,
         st.login_attempts,
         .stored [(pyStrip raw, ⟨sha256hex password, "admin"⟩)],
         .stored (insertA (pyStrip raw) ⟨[], []⟩ st.protected_data)⟩) ∧
    lookupA (pyStrip raw) (insertA (pyStrip raw) (⟨[], []⟩ : NoteData) st.protected_data) =
      some ⟨[], []⟩ := by
  constructor
  · simp [register_user, hempty, hpc, insertA]
  · exact lookupA_insertA_self ..

/-- Witness for C3 at concrete inputs: registering bob with caller role
user against the empty store yields a stored role of admin. -/
theorem first_registration_is_admin_witness :
    register_user hashW none "bob" "pw1" "pw1" "user" stWE =
      (true,
        ⟨[(pyStrip "bob", ⟨hashW "pw1", "admin"⟩)],
         insertA (pyStrip "bob") ⟨[], []⟩ stWE.protected_data,
         stWE.login_attempts,
         .stored [(pyStrip "bob", ⟨hashW "pw1", "admin"⟩)],
         .stored (insertA (pyStrip "bob") ⟨[], []⟩ stWE.protected_data)⟩) ∧
    lookupA (pyStrip "bob") (insertA (pyStrip "bob") (⟨[], []⟩ : NoteData) stWE.protected_data) =
      some ⟨[], []⟩ :=
  first_registration_is_admin hashW none "bob" "pw1" "pw1" "user" stWE
    (by decide) (by decide)

/-! ## C4 -/

/-- C4 (refuted): the rejection for an unknown username is
distinguishable from the rejection for a known username with a wrong
password, in both sources: the unknown-username path prints the uniform
message while the wrong-password path prints a different message that
includes the number of attempts remaining. -/
theorem unknown_and_wrong_password_rejections_differ :
    (login hashW "ghost" [(0, "pw")] stW).map LoginOutcome.msgs =
      some ["Invalid username or password"] ∧
    (login hashW "alice" [(0, "pw")] stW).map LoginOutcome.msgs =
      some ["Invalid password. 4 attempts remaining.",
        "Try again or press Ctrl+C to cancel login."] ∧
    (loginB hashW "ghost" "pw" 0 stW).map LoginOutcome.msgs =
      some ["Invalid username or password"] ∧
    (loginB hashW "alice" "pw" 0 stW).map LoginOutcome.msgs =
      some ["Invalid username or password. 4 attempts remaining."] := by
  decide

/-! ## C5 -/

/-- Uppercasing maps a lowercase hexadecimal digit to an uppercase one. -/
theorem toUpper_hexLower {c : Char} (h : c ∈ hexLowerChars) :
    c.toUpper ∈ hexUpperChars := by
  have hall : ∀ x ∈ hexLowerChars, x.toUpper ∈ hexUpperChars := by decide
  exact hall c h

/-- C5: assuming the digest of `username ++ date` has the md5-hexdigest
shape (32 lowercase hex characters), the derived emergency code is the
uppercased 6-character prefix of that digest, has length 6, consists of
uppercase hexadecimal characters, is the same on both of two derivations
for the same (username, day) pair, and the supplied code is compared
after strip-and-uppercase normalization: two supplied codes with the
same normalization drive `emergency_profile_reset` identically. -/
theorem emergency_code_shape
    (md5hex : String → String) (u d : String)
    (hshape : Md5HexStr (md5hex (u ++ d))) :
    deriveCode md5hex u d = pyUpper (pyTake (md5hex (u ++ d)) 6) ∧
    (deriveCode md5hex u d).length = 6 ∧
    (∀ c ∈ (deriveCode md5hex u d).data, c ∈ hexUpperChars) ∧
    deriveCode md5hex u d = deriveCode md5hex u d ∧
    (∀ (sha256hex : String → String) (raw a b npw cpw : String) (st : SecState),
      pyUpper (pyStrip a) = pyUpper (pyStrip b) →
      emergency_profile_reset sha256hex md5hex raw a npw cpw d st =
        emergency_profile_reset sha256hex md5hex raw b npw cpw d st) := by
  obtain ⟨hlen, hhex⟩ := hshape
  refine ⟨rfl, ?_, ?_, rfl, ?_⟩
  · show (((md5hex (u ++ d)).data.take 6).map Char.toUpper).length = 6
    simp [hlen]
  · intro c hc
    simp only [deriveCode, pyUpper, pyTake, List.mem_map] at hc
    obtain ⟨c0, hc0, rfl⟩ := hc
    exact toUpper_hexLower (hhex c0 (List.mem_of_mem_take hc0))
  · intro sha256hex raw a b npw cpw st hab
    simp [emergency_profile_reset, hab]

/-- Witness for C5 at concrete inputs: a fixed 32-character lowercase
hex digest for (bob, 20261012). -/
theorem emergency_code_shape_witness :
    deriveCode md5W "bob" "20261012" = pyUpper (pyTake (md5W ("bob" ++ "20261012")) 6) ∧
    (deriveCode md5W "bob" "20261012").length = 6 ∧
    (∀ c ∈ (deriveCode md5W "bob" "20261012").data, c ∈ hexUpperChars) ∧
    deriveCode md5W "bob" "20261012" = deriveCode md5W "bob" "20261012" ∧
    (∀ (sha256hex : String → String) (raw a b npw cpw : String) (st : SecState),
      pyUpper (pyStrip a) = pyUpper (pyStrip b) →
      emergency_profile_reset sha256hex md5W raw a npw cpw "20261012" st =
        emergency_profile_reset sha256hex md5W raw b npw cpw "20261012" st) :=
  emergency_code_shape md5W "bob" "20261012" ⟨by decide, by decide⟩

/-! ## C6 -/

/-- C6: a successful emergency reset of a registered username overwrites
only that user's password hash: the role is preserved, every other
user's record is unchanged, the protected-data store and its backing
file are untouched, the new credential mapping is persisted, and the
lockout dictionary is neither consulted nor modified (the operation
commutes with any replacement of it). -/
theorem emergency_reset_frame
    (sha256hex md5hex : String → String)
    (raw attempt npw d : String) (st : SecState) (rec : UserRecord)
    (hus : lookupA (pyStrip raw) st.users = some rec)
    (hcode : pyUpper (pyStrip attempt) = deriveCode md5hex (pyStrip raw) d) :
    emergency_profile_reset sha256hex md5hex raw attempt npw npw d st =
      ⟨insertA (pyStrip raw) ⟨sha256hex npw, rec.role⟩ st.users,
       st.protected_data,
       st.login_attempts,
       .stored (insertA (pyStrip raw) ⟨sha256hex npw, rec.role⟩ st.users),
       st.protFile⟩ ∧
    lookupA (pyStrip raw) (insertA (pyStrip raw) (⟨sha256hex npw, rec.role⟩ : UserRecord) st.users) =
      some ⟨sha256hex npw, rec.role⟩ ∧
    (∀ v, v ≠ pyStrip raw →
      lookupA v (insertA (pyStrip raw) (⟨sha256hex npw, rec.role⟩ : UserRecord) st.users) =
        lookupA v st.users) ∧
    (∀ la, emergency_profile_reset sha256hex md5hex raw attempt npw npw d (withAttempts st la) =
      withAttempts (emergency_profile_reset sha256hex md5hex raw attempt npw npw d st) la) := by
  refine ⟨?_, lookupA_insertA_self .., fun v hv => lookupA_insertA_ne _ _ hv, ?_⟩
  · simp [emergency_profile_reset, hus, hcode]
  · intro la
    simp [emergency_profile_reset, withAttempts, hus, hcode]

/-- Witness for C6 at concrete inputs: alice resets with the correct
code for the fixed digest and a fresh password. -/
theorem emergency_reset_frame_witness :
    emergency_profile_reset hashW md5W "alice" "012345" "npw" "npw" "20261012" stW =
      ⟨insertA (pyStrip "alice") ⟨hashW "npw", recW.role⟩ stW.users,
       stW.protected_data,
       stW.login_attempts,
       .stored (insertA (pyStrip "alice") ⟨hashW "npw", recW.role⟩ stW.users),
       stW.protFile⟩ ∧
    lookupA (pyStrip "alice")
        (insertA (pyStrip "alice") (⟨hashW "npw", recW.role⟩ : UserRecord) stW.users) =
      some ⟨hashW "npw", recW.role⟩ ∧
    (∀ v, v ≠ pyStrip "alice" →
      lookupA v (insertA (pyStrip "alice") (⟨hashW "npw", recW.role⟩ : UserRecord) stW.users) =
        lookupA v stW.users) ∧
    (∀ la, emergency_profile_reset hashW md5W "alice" "012345" "npw" "npw" "20261012"
        (withAttempts stW la) =
      withAttempts (emergency_profile_reset hashW md5W "alice" "012345" "npw" "npw" "20261012" stW)
        la) :=
  emergency_reset_frame hashW md5W "alice" "012345" "npw" "20261012" stW recW
    (by decide) (by decide)

/-! ## C7 -/

/-- C7: loading from a malformed backing file yields the empty mapping
without touching the file and without a fatal error, and loading from a
missing backing file yields the empty mapping after persisting an empty
store (the returned file state is exactly a save of the empty mapping). -/
theorem load_users_error_recovery :
    load_users .malformed = ([], .malformed) ∧
    load_users .missing = ([], save_users []) ∧
    (load_users .missing).2 = .stored [] :=
  ⟨rfl, rfl, rfl⟩

/-! ## C8 -/

/-- C8: for every backing-file state, saving the mapping obtained from a
load and loading again yields the identical mapping (and a stored file
holding exactly that mapping). -/
theorem save_load_roundtrip (f : FileState (List (String × UserRecord))) :
    load_users (save_users (load_users f).1) = ((load_users f).1, .stored (load_users f).1) := by
  cases f <;> rfl

/-! ## Role-invariant helper lemmas -/

theorem RoleInv_insertA (k : String) (v : UserRecord) (l : List (String × UserRecord))
    (h : RoleInv l) (hv : RoleOk v) : RoleInv (insertA k v l) := by
  induction l with
  | nil =>
    intro p hp
    simp only [insertA, List.mem_singleton] at hp
    rw [hp]
    exact hv
  | cons hd tl ih =>
    obtain ⟨k', v'⟩ := hd
    intro p hp
    simp only [insertA] at hp
    split at hp
    · rcases List.mem_cons.mp hp with rfl | hmem
      · exact hv
      · exact h _ (List.mem_cons_of_mem _ hmem)
    · rcases List.mem_cons.mp hp with rfl | hmem
      · exact h _ (List.mem_cons_self _ _)
      · exact ih (fun q hq => h q (List.mem_cons_of_mem _ hq)) _ hmem

theorem RoleOk_of_lookupA (k : String) (l : List (String × UserRecord)) (rec : UserRecord)
    (h : RoleInv l) (hl : lookupA k l = some rec) : RoleOk rec := by
  induction l with
  | nil => simp [lookupA] at hl
  | cons hd tl ih =>
    obtain ⟨k', v'⟩ := hd
    simp only [lookupA] at hl
    split at hl
    · cases hl
      exact h _ (List.mem_cons_self _ _)
    · exact ih (fun q hq => h q (List.mem_cons_of_mem _ hq)) hl

/-! ## State-frame lemmas for the login path -/

theorem is_frozen_state_frame (now : Nat) (st : SecState) (u : String) :
    (is_frozen now st u).2.2.users = st.users ∧
    (is_frozen now st u).2.2.protected_data = st.protected_data ∧
    (is_frozen now st u).2.2.userFile = st.userFile ∧
    (is_frozen now st u).2.2.protFile = st.protFile := by
  unfold is_frozen
  repeat' split
  all_goals exact ⟨rfl, rfl, rfl, rfl⟩

theorem loginLoop_state_frame (sha256hex : String → String) (u : String) :
    ∀ (attempts : List (Nat × String)) (st : SecState) (out : LoginOutcome),
      loginLoop sha256hex u attempts st = some out →
      out.state.users = st.users ∧ out.state.protected_data = st.protected_data ∧
      out.state.userFile = st.userFile ∧ out.state.protFile = st.protFile := by
  intro attempts
  induction attempts with
  | nil =>
    intro st out h
    simp only [loginLoop, Option.some.injEq] at h
    subst h
    exact ⟨rfl, rfl, rfl, rfl⟩
  | cons a rest ih =>
    obtain ⟨now, pw⟩ := a
    intro st out h
    obtain ⟨hu, hp, hf1, hf2⟩ := is_frozen_state_frame now st u
    simp only [loginLoop] at h
    split at h
    · simp only [Option.some.injEq] at h
      subst h
      exact ⟨hu, hp, hf1, hf2⟩
    · split at h
      · exact absurd h (by simp)
      · split at h
        · simp only [Option.some.injEq] at h
          subst h
          exact ⟨hu, hp, hf1, hf2⟩
        · split at h
          · simp only [Option.some.injEq] at h
            subst h
            exact ⟨hu, hp, hf1, hf2⟩
          · rw [Option.map_eq_some'] at h
            obtain ⟨out', h1, h2⟩ := h
            subst h2
            obtain ⟨hu', hp', hf1', hf2'⟩ := ih _ _ h1
            exact ⟨hu'.trans hu, hp'.trans hp, hf1'.trans hf1, hf2'.trans hf2⟩

/-! ## C9 -/

/-- C9: assuming every stored role is one of the two enum values, every
operation preserves this invariant; the first-ever registration stores
role admin, and a later registration whose supplied role (stripped and
lowercased) is neither admin nor user stores role user.  `login` never
changes the credential mapping at all. -/
theorem role_enum_invariant
    (sha256hex md5hex : String → String) (st : SecState) (hinv : RoleInv st.users) :
    (∀ (a : Option String) (raw pw role_input : String), st.users = [] →
      lookupA (pyStrip raw) (register_user sha256hex a raw pw pw role_input st).2.users =
        some ⟨sha256hex pw, "admin"⟩) ∧
    (∀ (adm raw pw role_input : String) (arec : UserRecord),
      st.users ≠ [] →
      lookupA adm st.users = some arec → arec.role = "admin" →
      lookupA (pyStrip raw) st.users = none →
      pyLower (pyStrip role_input) ≠ "admin" →
      pyLower (pyStrip role_input) ≠ "user" →
      lookupA (pyStrip raw)
          (register_user sha256hex (some adm) raw pw pw role_input st).2.users =
        some ⟨sha256hex pw, "user"⟩) ∧
    (∀ (a : Option String) (raw pw cpw role_input : String),
      RoleInv (register_user sha256hex a raw pw cpw role_input st).2.users) ∧
    (∀ (u cur npw cpw : String) (res : Bool × SecState),
      change_password sha256hex u cur npw cpw st = some res → RoleInv res.2.users) ∧
    (∀ (t npw cpw : String), RoleInv (admin_reset_password sha256hex t npw cpw st).users) ∧
    (∀ (raw att npw cpw d : String),
      RoleInv (emergency_profile_reset sha256hex md5hex raw att npw cpw d st).users) ∧
    (∀ (u note : String), RoleInv (add_note u note st).users) ∧
    (∀ (raw : String) (atts : List (Nat × String)) (out : LoginOutcome),
      login sha256hex raw atts st = some out → out.state.users = st.users) := by
  refine ⟨?_, ?_, ?_, ?_, ?_, ?_, ?_, ?_⟩
  · intro a raw pw role_input hempty
    simp [register_user, hempty, insertA, lookupA]
  · intro adm raw pw role_input arec hne harec harole hnew hra hru
    have hlen : st.users.length ≠ 0 := by
      simpa [List.length_eq_zero] using hne
    simp [register_user, hlen, harec, harole, hnew, hra, hru]
  · intro a raw pw cpw role_input
    simp only [register_user]
    split
    · exact hinv
    · split
      · exact hinv
      · split
        · exact hinv
        · dsimp only
          refine RoleInv_insertA _ _ _ hinv ?_
          show (if st.users.length = 0 then "admin"
            else if pyLower (pyStrip role_input) = "admin" ∨ pyLower (pyStrip role_input) = "user"
              then pyLower (pyStrip role_input) else "user") = "admin" ∨ _ = "user"
          split
          · exact Or.inl rfl
          · split
            · next hr => exact hr
            · exact Or.inr rfl
  · intro u cur npw cpw res h
    simp only [change_password] at h
    split at h
    · exact absurd h (by simp)
    · next rec hrec =>
      split at h
      · cases h
        exact hinv
      · split at h
        · cases h
          exact hinv
        · cases h
          exact RoleInv_insertA _ _ _ hinv (RoleOk_of_lookupA _ _ rec hinv hrec)
  · intro t npw cpw
    simp only [admin_reset_password]
    split
    · exact hinv
    · next rec hrec =>
      split
      · exact hinv
      · exact RoleInv_insertA _ _ _ hinv (RoleOk_of_lookupA _ _ rec hinv hrec)
  · intro raw att npw cpw d
    simp only [emergency_profile_reset]
    split
    · exact hinv
    · next rec hrec =>
      split
      · exact hinv
      · split
        · exact hinv
        · exact RoleInv_insertA _ _ _ hinv (RoleOk_of_lookupA _ _ rec hinv hrec)
  · intro u note
    exact hinv
  · intro raw atts out h
    simp only [login] at h
    split at h
    · simp only [Option.some.injEq] at h
      subst h
      rfl
    · split at h
      · exact (loginLoop_state_frame sha256hex (pyStrip raw) atts _ out h).1
      · exact (loginLoop_state_frame sha256hex (pyStrip raw) atts _ out h).1

/-- Witness for C9 at concrete inputs: admin alice registers bob with
the junk role wizard, which is stored as user; an admin reset preserves
the role invariant. -/
theorem role_enum_invariant_witness :
    lookupA (pyStrip "bob")
        (register_user hashW (some "alice") "bob" "pw" "pw" "wizard" stW).2.users =
      some ⟨hashW "pw", "user"⟩ ∧
    RoleInv (admin_reset_password hashW "alice" "npw" "npw" stW).users := by
  have h := role_enum_invariant hashW md5W stW
    (by intro p hp; simp only [stW, recW] at hp; simp at hp; rw [hp]; exact Or.inl rfl)
  exact ⟨h.2.1 "alice" "bob" "pw" "wizard" recW (by decide) (by decide) (by decide)
      (by decide) (by decide) (by decide),
    h.2.2.2.2.1 "alice" "npw" "npw"⟩

/-! ## C10 -/

/-- C10: for a registered username, the self-service password change of
`src/BSS/bss.py` fails with an unchanged state when the supplied current
password does not hash to the stored hash, or when the new password and
its confirmation differ; when both checks pass, exactly that user's
stored hash is replaced by the hash of the new password (role
preserved), the new mapping is persisted, and every other user's record
is unchanged. -/
theorem change_password_guards
    (sha256hex : String → String) (u cur npw cpw : String) (st : SecState)
    (rec : UserRecord) (hus : lookupA u st.users = some rec) :
    (sha256hex cur ≠ rec.password →
      change_password sha256hex u cur npw cpw st = some (false, st)) ∧
    (sha256hex cur = rec.password → npw ≠ cpw →
      change_password sha256hex u cur npw cpw st = some (false, st)) ∧
    (sha256hex cur = rec.password → npw = cpw →
      change_password sha256hex u cur npw cpw st =
        some (true,
          ⟨insertA u ⟨sha256hex npw, rec.role⟩ st.users,
           st.protected_data, st.login_attempts,
           .stored (insertA u ⟨sha256hex npw, rec.role⟩ st.users),
           st.protFile⟩)) ∧
    (∀ v, v ≠ u →
      lookupA v (insertA u (⟨sha256hex npw, rec.role⟩ : UserRecord) st.users) =
        lookupA v st.users) := by
  refine ⟨?_, ?_, ?_, fun v hv => lookupA_insertA_ne _ _ hv⟩
  · intro hne
    simp [change_password, hus, hne]
  · intro heq hne
    simp [change_password, hus, heq, hne]
  · intro heq hpc
    simp [change_password, hus, heq, hpc]

/-- Witness for C10 at concrete inputs: alice with stored hash
hash-secret; a wrong current password and a mismatched confirmation
leave the state unchanged, while a correct pair replaces the hash. -/
theorem change_password_guards_witness :
    change_password hashW "alice" "bad" "n1" "n1" stW = some (false, stW) ∧
    change_password hashW "alice" "secret" "n1" "n2" stW = some (false, stW) ∧
    change_password hashW "alice" "secret" "n1" "n1" stW =
      some (true,
        ⟨insertA "alice" ⟨hashW "n1", recW.role⟩ stW.users,
         stW.protected_data, stW.login_attempts,
         .stored (insertA "alice" ⟨hashW "n1", recW.role⟩ stW.users),
         stW.protFile⟩) ∧
    lookupA "bob" (insertA "alice" (⟨hashW "n1", recW.role⟩ : UserRecord) stW.users) =
      lookupA "bob" stW.users := by
  have h := change_password_guards hashW "alice" "secret" "n1" "n1" stW recW (by decide)
  have h2 := change_password_guards hashW "alice" "bad" "n1" "n1" stW recW (by decide)
  have h3 := change_password_guards hashW "alice" "secret" "n1" "n2" stW recW (by decide)
  exact ⟨h2.1 (by decide), h3.2.1 (by decide) (by decide),
    h.2.2.1 (by decide) (by decide), h.2.2.2 "bob" (by decide)⟩

end BasicSecuritySystem
